import Mathlib

/-!
# Verification of the api_yamdb review/catalog API

Shallow embedding of the data model, serializer validation and view logic of
the api_yamdb repository (files `api_yamdb/reviews/models.py`,
`api_yamdb/api/serializers.py`, `api_yamdb/api/views.py`), with theorems
settling the specification claims about it.

Conventions: Django/DRF serializer validation is embedded as functions into
`Except String _`; view handlers become pure functions from an explicit state
(lists of stored rows) to a response value plus the successor state.  Machine
integers do not overflow in any of the embedded code paths (years, scores),
so `Int` is used directly.
-/

namespace YaMDb

/-! ## Users

The `users/models.py` file is not part of the provided sources; the `User`
entity is modelled from the spec (Section 3 data-model table): attributes
username, email, role, bio, confirmation_code, with usernames unique and
role one of user/moderator/admin. -/

/-- Modelled from the spec: the external `User` entity of `users/models.py`
(absent from the sources) with the attributes listed by the data-model
table of the spec: username, email, role, bio, confirmation_code. -/
structure User where
  username : String
  email : String
  role : String
  bio : String
  confirmationCode : String
deriving Repr, DecidableEq

/-- Modelled from the spec: `request.user.is_admin` used by
`UserViewSet.me` — true exactly when the role of the user is the admin role
(spec: role ∈ \x7buser, moderator, admin\x7d governs write permissions). -/
def User.is_admin (u : User) : Bool :=
  u.role == "admin"

/-- The valid role choices (spec data-model table: role ∈ \x7buser,
moderator, admin\x7d). -/
def roleChoices : List String :=
  ["user", "moderator", "admin"]

/-! ## `PATCH /users/me` (`views.py`, `UserViewSet.me`)

On PATCH the view picks `UserMeSerializer` (role declared read-only) for an
admin caller and the plain `UserSerializer` (role writable) otherwise, then
calls `serializer.save(role=request.user.role, partial=True)`: the `role`
keyword argument passed to `save` overrides whatever the serializer
validated, so the stored role is always the pre-call role of the caller. -/

/-- A partial-update request body for `/users/me`: each field is present or
absent (`partial=True`).  Fields mirror `UserSerializer.Meta.fields`. -/
structure MePatchBody where
  username : Option String := none
  email : Option String := none
  role : Option String := none
  first_name : Option String := none
  last_name : Option String := none
  bio : Option String := none
deriving Repr, DecidableEq

/-- Embeds `UserSerializer.validate_username`: rejects the literal value
"me". -/
def validate_username (value : String) : Except String String :=
  if value = "me" then
    Except.error "cannot use me as username"
  else
    Except.ok value

/-- Field validation of a partial `/users/me` body: `validate_username` on a
supplied username, and choice validation on a supplied (writable) role. -/
def validateMeBody (body : MePatchBody) : Except String MePatchBody :=
  match body.username.map validate_username with
  | some (Except.error e) => Except.error e
  | _ =>
      match body.role with
      | some r =>
          if roleChoices.contains r then Except.ok body
          else Except.error "invalid role choice"
      | none => Except.ok body

/-- Apply validated partial data to the stored user
(`ModelSerializer.update`: `setattr` per validated field, then save).
`first_name`/`last_name` are not attributes of the modelled `User`; only
the modelled attributes are written. -/
def applyPatch (u : User) (data : MePatchBody) : User :=
  { u with
    username := data.username.getD u.username
    email := data.email.getD u.email
    role := data.role.getD u.role
    bio := data.bio.getD u.bio }

/-- Embeds `UserViewSet.me` on PATCH (`views.py` lines 191-205): admin caller gets
`UserMeSerializer` (role read-only, dropped from validated data), non-admin
gets `UserSerializer` (role writable); then
`serializer.save(role=request.user.role, partial=True)` overrides the role
in the data actually written with the current role of the caller. -/
def userMePatch (caller : User) (body : MePatchBody) : Except String User :=
  match validateMeBody
      (if caller.is_admin then { body with role := none } else body) with
  | Except.error e => Except.error e
  | Except.ok validated =>
      Except.ok (applyPatch caller { validated with role := some caller.role })

/-! ## `TitleSerializer.validate_year` (`serializers.py` lines 50-55)

The source guard is `data >= dt.datetime.now().year and data < 0`; the
current year is a parameter of the embedding. -/

/-- Embeds `TitleSerializer.validate_year`: raises only when
`data >= currentYear and data < 0`. -/
def validate_year (currentYear data : Int) : Except String Int :=
  if currentYear ≤ data ∧ data < 0 then
    Except.error "enter a correct year"
  else
    Except.ok data

/-! ## Title rating (`views.py` `TitleViewSet`, `serializers.py`
`TitleOnlyReadSerializer`)

`TitleViewSet.queryset` annotates `rating=Avg("reviews__score")` (SQL AVG:
null on an empty set, otherwise the exact arithmetic mean, a rational).
`TitleOnlyReadSerializer` then declares `rating = serializers.IntegerField(
read_only=True)`, whose `to_representation` is Python `int(value)`:
truncation toward zero.  A `None` attribute is passed through as null. -/

/-- A stored `Review` row restricted to the fields the rating pipeline
reads (`reviews/models.py`: `score` is an integer, validated into [1,10]
elsewhere). -/
structure ReviewRow where
  author : String
  titleId : Nat
  score : Int
deriving Repr, DecidableEq

/-- The queryset annotation `rating=Avg("reviews__score")`: none when the
title has no reviews, otherwise the exact rational mean of the scores. -/
def ratingAvg (reviews : List ReviewRow) : Option Rat :=
  if reviews.isEmpty then none
  else some (mkRat (reviews.map ReviewRow.score).sum reviews.length)

/-- Python `int()` on a float/decimal value: truncation toward zero
(`Int.tdiv` of the reduced numerator by the positive denominator). -/
def pythonInt (q : Rat) : Int :=
  q.num.tdiv q.den

/-- The `rating` field of `TitleOnlyReadSerializer` on read:
`IntegerField.to_representation` is `int(value)`, with a null annotation
passed through as null. -/
def serializedRating (reviews : List ReviewRow) : Option Int :=
  (ratingAvg reviews).map pythonInt

/-- The wording of the spec for the derived attribute ("`rating` equals
the arithmetic mean of associated Review.score, or null/absent when zero
reviews exist"), for comparison with `serializedRating` from the code. -/
def specMeanRating (reviews : List ReviewRow) : Option Rat :=
  if reviews.isEmpty then none
  else some (mkRat (reviews.map ReviewRow.score).sum reviews.length)

/-! ## Review creation (`serializers.py` `ReviewSerializer`,
`views.py` `ReviewViewSet.perform_create`)

`ReviewSerializer` declares `author` read-only (never deserialized from the
body) and `score` an `IntegerField` with `validate_score` enforcing
1 ≤ score ≤ 10; object-level `validate` runs the duplicate check only when
the request method is POST.  `perform_create` saves with
`author=request.user` and `title=` the title from the URL path. -/

/-- The writable part of a review request body, plus the `author` value a
client may try to smuggle in (ignored: the field is read-only). -/
structure ReviewBody where
  text : String
  score : Int
  author : Option String := none
  title : Option Nat := none
deriving Repr, DecidableEq

/-- Embeds `ReviewSerializer.validate_score`: fails outside [1,10]. -/
def validate_score (score : Int) : Except String Int :=
  if ¬(1 ≤ score ∧ score ≤ 10) then
    Except.error "check the score"
  else
    Except.ok score

/-- Embeds `ReviewSerializer.validate` (object-level): on any method other
than POST the data is returned untouched; on POST it errors when the
acting user already has a review for the title named in the URL. -/
def reviewValidate (method : String) (stored : List ReviewRow)
    (author : String) (titleId : Nat) : Except String Unit :=
  if method ≠ "POST" then
    Except.ok ()
  else if stored.any (fun r => r.author == author && r.titleId == titleId) then
    Except.error "cannot leave a second review"
  else
    Except.ok ()

/-- The review create path: field validation (`validate_score`),
object-level `validate` with method POST, then the
`serializer.save(author=request.user, title=title)` call of
`ReviewViewSet.perform_create`, which takes author and title from the
request context, not from the body. -/
def reviewCreate (caller : String) (titleId : Nat) (stored : List ReviewRow)
    (body : ReviewBody) : Except String ReviewRow :=
  match validate_score body.score with
  | Except.error e => Except.error e
  | Except.ok score =>
      match reviewValidate "POST" stored caller titleId with
      | Except.error e => Except.error e
      | Except.ok _ =>
          Except.ok { author := caller, titleId := titleId, score := score }

/-! ## Sign-up (`views.py` `SignUpViewSet.create`)

The handler first builds an unbound `SignUpSerializer` on the request data;
if a user with exactly the submitted (username, email) pair exists, it
rebinds the serializer to that user (so the framework uniqueness
validators exclude that instance).  On valid data it saves, reloads the
user, and mails the confirmation code of the user; on invalid data it
returns 400.  Username uniqueness comes from the `User` model (absent
`users/models.py`), modelled from the "username uniqueness rule" of the
spec. -/

/-- Outcome of a sign-up request: the successor user table, the HTTP
status, and the (recipient email, confirmation code) of the mail sent, if
any. -/
structure SignUpResult where
  users : List User
  status : Nat
  mailed : Option (String × String)
deriving Repr, DecidableEq

/-- Modelled from the spec: saving a (re)bound `SignUpSerializer` issues
the user a fresh confirmation code (spec: "a repeat sign-up with the same
pair re-issues a confirmation code"); code generation lives in the absent
`users/models.py`, so the fresh code is a parameter here. -/
def refreshCode (users : List User) (username email newCode : String) :
    List User :=
  users.map fun u =>
    if u.username == username && u.email == email then
      { u with confirmationCode := newCode }
    else u

/-- Embeds `SignUpViewSet.create` (`views.py` lines 214-235).  `newCode` stands
for the confirmation code the (spec-modelled) `User` save issues. -/
def signUpCreate (users : List User) (username email newCode : String) :
    SignUpResult :=
  if users.any fun u => u.username == username && u.email == email then
    -- serializer rebound to the existing instance: the username uniqueness
    -- validator excludes it; `validate_username` still rejects "me".
    if username == "me" then
      { users := users, status := 400, mailed := none }
    else
      { users := refreshCode users username email newCode,
        status := 200, mailed := some (email, newCode) }
  else
    -- unbound serializer: `validate_username` plus the username
    -- uniqueness validator of the model (spec-modelled) must both pass.
    if username == "me" || users.any (fun u => u.username == username) then
      { users := users, status := 400, mailed := none }
    else
      let fresh : User :=
        { username := username, email := email, role := "user",
          bio := "", confirmationCode := newCode }
      { users := users ++ [fresh], status := 200,
        mailed := some (email, newCode) }

/-! ## Token exchange (`views.py` `Token.post`, `serializers.py`
`TokenSerializer`)

`TokenSerializer` requires both fields (`CharField(required=True)`, blank
not allowed, username max_length 150); then the view looks the user up with
`get_object_or_404` and compares codes with `check_confirmation_code`
(defined in the absent `api/utils.py`). -/

/-- Outcome of a token request: HTTP status and the issued token body, if
any. -/
structure TokenResult where
  status : Nat
  token : Option String
deriving Repr, DecidableEq

/-- Embeds `TokenSerializer.is_valid`: both fields required and non-blank,
username at most 150 characters. -/
def tokenSerializerValid (username code : String) : Bool :=
  username ≠ "" && username.length ≤ 150 && code ≠ ""

/-- Modelled from the spec: `check_confirmation_code(user, code)` from the
absent `api/utils.py` — true exactly when the submitted code matches the
stored confirmation code of the user (spec: "fails with a validation error if
the code does not match"). -/
def check_confirmation_code (u : User) (code : String) : Bool :=
  u.confirmationCode == code

/-- Embeds `AccessToken.for_user` (external token issuer), modelled as an
injective tagging of the username. -/
def issueToken (u : User) : String :=
  "access-token:" ++ u.username

/-- Embeds `Token.post` (`views.py` lines 243-255): serializer validation
(400 on failure), `get_object_or_404` by username (404 when absent), then
200 with `{"token": ...}` on a matching code and 400 with no token
otherwise. -/
def tokenPost (users : List User) (username code : String) : TokenResult :=
  if ¬ tokenSerializerValid username code then
    { status := 400, token := none }
  else
    match users.find? (fun u => u.username == username) with
    | none => { status := 404, token := none }
    | some u =>
        if check_confirmation_code u code then
          { status := 200, token := some (issueToken u) }
        else
          { status := 400, token := none }

/-! ## Category and Genre deletion (`views.py` `CategoryViewSet.
delete_category`, `GenreViewSet.delete_genre`; `reviews/models.py`)

`Title.category` is a `ForeignKey(..., on_delete=models.PROTECT)`: deleting
a category referenced by a title raises `ProtectedError`, which the view
does not catch (it propagates as a server error and nothing is deleted).
`Title.genre` is a plain `ManyToManyField`: deleting a genre always
succeeds and merely drops the through-table rows.  Both delete actions
serialize the object with `CategorySerializer` (fields name, slug) before
deleting and answer 204 with that body. -/

/-- Embeds `Category` rows (`reviews/models.py` lines 13-34): name and unique
slug. -/
structure Category where
  name : String
  slug : String
deriving Repr, DecidableEq

/-- Embeds `Genre` rows (`reviews/models.py` lines 37-58): name and unique
slug. -/
structure Genre where
  name : String
  slug : String
deriving Repr, DecidableEq

/-- Embeds `Title` rows restricted to the fields the deletion claims read
(`reviews/models.py` lines 61-105): the optional protecting category
reference (by slug) and the many-to-many genre references (by slug). -/
structure Title where
  name : String
  year : Int
  category : Option String
  genre : List String
deriving Repr, DecidableEq

/-- The `CategorySerializer` output shape: fields `("name", "slug")`.
`delete_genre` reuses this serializer on a `Genre` instance, which has the
same two attributes. -/
structure SerializedSlug where
  name : String
  slug : String
deriving Repr, DecidableEq

/-- Embeds `CategorySerializer(category).data`. -/
def serializeCategory (c : Category) : SerializedSlug :=
  { name := c.name, slug := c.slug }

/-- Embeds `CategorySerializer(genre).data`: the Genre model has the same `name`
and `slug` attributes, so the reused serializer yields the same shape. -/
def serializeGenre (g : Genre) : SerializedSlug :=
  { name := g.name, slug := g.slug }

/-- Outcome of a delete-by-slug action: a 404 from `get_object`, an
uncaught `ProtectedError` from the PROTECT foreign key, or the HTTP
response (status, serialized body). -/
inductive DeleteOutcome where
  | notFound
  | protectedError
  | response (status : Nat) (body : SerializedSlug)
deriving Repr, DecidableEq

/-- The catalog state the deletion handlers act on. -/
structure CatalogState where
  categories : List Category
  genres : List Genre
  titles : List Title
deriving Repr, DecidableEq

/-- Embeds `CategoryViewSet.delete_category` (`views.py` lines 66-77):
`get_object` by slug (404 if absent), serialize, `category.delete()` —
which raises `ProtectedError` when some title references the category
(PROTECT), else removes the row — then 204 with the serialized body. -/
def delete_category (st : CatalogState) (slug : String) :
    DeleteOutcome × CatalogState :=
  match st.categories.find? (fun c => c.slug == slug) with
  | none => (DeleteOutcome.notFound, st)
  | some cat =>
      let body := serializeCategory cat
      if st.titles.any (fun t => t.category == some slug) then
        (DeleteOutcome.protectedError, st)
      else
        (DeleteOutcome.response 204 body,
         { st with categories := st.categories.filter (fun c => c.slug != slug) })

/-- Embeds `GenreViewSet.delete_genre` (`views.py` lines 92-103): same shape, but
`Genre` is only referenced through a ManyToManyField, so the delete always
succeeds and clears the genre from the genre list of every title. -/
def delete_genre (st : CatalogState) (slug : String) :
    DeleteOutcome × CatalogState :=
  match st.genres.find? (fun g => g.slug == slug) with
  | none => (DeleteOutcome.notFound, st)
  | some g =>
      let body := serializeGenre g
      (DeleteOutcome.response 204 body,
       { st with
          genres := st.genres.filter (fun x => x.slug != slug)
          titles := st.titles.map fun t =>
            { t with genre := t.genre.filter (fun s => s != slug) } })

/-! ## Concrete fixtures used by witnesses and counterexamples -/

/-- A concrete admin user. -/
def adminAlice : User :=
  { username := "alice", email := "alice@example.com", role := "admin",
    bio := "", confirmationCode := "secret" }

/-- A concrete non-admin user. -/
def plainBob : User :=
  { username := "bob", email := "bob@example.com", role := "user",
    bio := "", confirmationCode := "bobcode" }

/-- A concrete category referenced by a title in `demoState`. -/
def filmCat : Category :=
  { name := "Film", slug := "film" }

/-- A concrete category referenced by no title in `demoState`. -/
def bookCat : Category :=
  { name := "Books", slug := "books" }

/-- A concrete catalog: two categories, one genre, one title referencing
category "film" and genre "drama". -/
def demoState : CatalogState :=
  { categories := [filmCat, bookCat],
    genres := [{ name := "Drama", slug := "drama" }],
    titles := [{ name := "X", year := 2000, category := some "film",
                 genre := ["drama"] }] }

/-! # Theorems settling the claims -/

/-- Helper: a successful `validateMeBody` returns its input unchanged. -/
theorem validateMeBody_ok {b v : MePatchBody}
    (h : validateMeBody b = Except.ok v) : v = b := by
  unfold validateMeBody at h
  split at h
  · exact absurd h (by simp)
  · split at h
    · split at h
      · exact (Except.ok.inj h).symm
      · exact absurd h (by simp)
    · exact (Except.ok.inj h).symm

/-- C1 (counterexample): an admin caller PATCHes `/users/me` with
`role = "user"`; the call succeeds but the stored role stays "admin" — the
supplied value is not applied, contradicting the claim that an admin caller
changes their own role this way. -/
theorem c1_admin_role_change_counterexample :
    userMePatch adminAlice { role := some "user" } = Except.ok adminAlice ∧
      adminAlice.role ≠ "user" := by
  constructor
  · rfl
  · decide

/-- C1 (amended): for every caller — admin or not — a successful
`PATCH /users/me` leaves the role unchanged: the admin branch uses
`UserMeSerializer` whose role field is read-only, and both branches save
with `role=request.user.role`, re-writing the pre-call role. -/
theorem c1_me_patch_role_unchanged (caller : User) (body : MePatchBody)
    (u : User) (h : userMePatch caller body = Except.ok u) :
    u.role = caller.role := by
  unfold userMePatch at h
  split at h
  · exact absurd h (by simp)
  · rw [← Except.ok.inj h]
    simp [applyPatch]

/-- C1 witness: the amended theorem applied to the concrete non-admin
`plainBob` PATCHing a body that tries to set `role = "admin"`. -/
theorem c1_me_patch_role_unchanged_witness :
    (userMePatch plainBob { role := some "admin" } = Except.ok plainBob) ∧
      plainBob.role = plainBob.role :=
  ⟨by rfl,
   c1_me_patch_role_unchanged plainBob { role := some "admin" } plainBob
     (by rfl)⟩

/-- C4: the guard of `validate_year` (`data >= current_year and data < 0`)
is unsatisfiable whenever the current year is positive, so field-level year
validation accepts every integer unchanged. -/
theorem c4_validate_year_accepts_everything (currentYear data : Int)
    (h : 0 < currentYear) :
    validate_year currentYear data = Except.ok data := by
  unfold validate_year
  rw [if_neg]
  rintro ⟨h1, h2⟩
  omega

/-- C4 witness: the theorem applied at current year 2026 and the input
-44 (a negative year is accepted, as the claim states). -/
theorem c4_validate_year_accepts_everything_witness :
    (0 : Int) < 2026 ∧ validate_year 2026 (-44) = Except.ok (-44) :=
  ⟨by decide, c4_validate_year_accepts_everything 2026 (-44) (by decide)⟩

/-- C2 (counterexample): a title with two reviews scored 4 and 9 has exact
arithmetic mean 13/2, but the serialized `rating` is the integer 6 — the
`IntegerField` representation truncates, so the returned rating does not in
general equal the arithmetic mean of the scores. -/
theorem c2_rating_mean_counterexample :
    serializedRating [⟨"u1", 1, 4⟩, ⟨"u2", 1, 9⟩] = some 6 ∧
      specMeanRating [⟨"u1", 1, 4⟩, ⟨"u2", 1, 9⟩] = some (mkRat 13 2) ∧
      mkRat 6 1 ≠ mkRat 13 2 := by
  refine ⟨by decide, by decide, by decide⟩

/-- C2 (amended): the rating returned on a read is the truncation toward
zero (Python `int()`, applied by the `IntegerField` of
`TitleOnlyReadSerializer`) of the arithmetic mean of the scores of the
Reviews of the Title, and is null when the Title has zero Reviews; a Title
with exactly two reviews of scores 4 and 8 has rating 6 (the mean happens
to be whole there). -/
theorem c2_rating_is_truncated_mean :
    (∀ reviews : List ReviewRow,
        serializedRating reviews = (specMeanRating reviews).map pythonInt) ∧
      serializedRating [] = none ∧
      serializedRating [⟨"u1", 1, 4⟩, ⟨"u2", 1, 8⟩] = some 6 := by
  refine ⟨fun reviews => rfl, rfl, by decide⟩

/-- C3: with a stored review by the same author for the same title, the
object-level `validate` of `ReviewSerializer` errors on the POST (create)
path, and on any non-POST method it returns without running the duplicate
check at all. -/
theorem c3_duplicate_check_only_on_create (method : String)
    (stored : List ReviewRow) (author : String) (titleId : Nat)
    (hdup : ∃ r ∈ stored, r.author = author ∧ r.titleId = titleId) :
    reviewValidate "POST" stored author titleId =
        Except.error "cannot leave a second review" ∧
      (method ≠ "POST" →
        reviewValidate method stored author titleId = Except.ok ()) := by
  constructor
  · obtain ⟨r, hr, ha, ht⟩ := hdup
    unfold reviewValidate
    rw [if_neg (by simp), if_pos]
    refine List.any_eq_true.mpr ⟨r, hr, ?_⟩
    simp [ha, ht]
  · intro hm
    simp [reviewValidate, hm]

/-- C3 witness: the theorem applied to a store holding the review of
author "bob" on title 5, with "PATCH" as the non-POST method. -/
theorem c3_duplicate_check_only_on_create_witness :
    reviewValidate "POST" [⟨"bob", 5, 7⟩] "bob" 5 =
        Except.error "cannot leave a second review" ∧
      reviewValidate "PATCH" [⟨"bob", 5, 7⟩] "bob" 5 = Except.ok () := by
  have happ := c3_duplicate_check_only_on_create "PATCH" [⟨"bob", 5, 7⟩]
    "bob" 5 ⟨⟨"bob", 5, 7⟩, by simp, rfl, rfl⟩
  exact ⟨happ.1, happ.2 (by decide)⟩

/-- C5: a repeat sign-up with a (username, email) pair that already
belongs to an existing account keeps the account count unchanged, answers
200 and mails a confirmation code to that email; a sign-up reusing an
existing username with a different email is rejected (400) by the
username uniqueness rule, with no account created and no mail sent. -/
theorem c5_signup_idempotent (users : List User)
    (username email newCode : String) (hme : username ≠ "me") :
    ((∃ u ∈ users, u.username = username ∧ u.email = email) →
        (signUpCreate users username email newCode).users.length =
            users.length ∧
          (signUpCreate users username email newCode).status = 200 ∧
          (signUpCreate users username email newCode).mailed =
            some (email, newCode)) ∧
      ((∃ u ∈ users, u.username = username) →
        (∀ u ∈ users, u.username = username → u.email ≠ email) →
        (signUpCreate users username email newCode).status = 400 ∧
          (signUpCreate users username email newCode).users = users ∧
          (signUpCreate users username email newCode).mailed = none) := by
  have hmeb : (username == "me") = false := by simp [hme]
  constructor
  · rintro ⟨u, hu, huser, hemail⟩
    have hbound :
        (users.any fun x => x.username == username && x.email == email) =
          true :=
      List.any_eq_true.mpr ⟨u, hu, by simp [huser, hemail]⟩
    simp [signUpCreate, hbound, hmeb, refreshCode]
  · rintro ⟨u, hu, huser⟩ hdiff
    have hbound :
        (users.any fun x => x.username == username && x.email == email) =
          false := by
      apply List.any_eq_false.mpr
      intro x hx
      simp only [Bool.and_eq_true, beq_iff_eq, not_and]
      intro hxu
      exact hdiff x hx hxu
    have hname : (users.any fun x => x.username == username) = true :=
      List.any_eq_true.mpr ⟨u, hu, by simp [huser]⟩
    simp [signUpCreate, hbound, hname, hmeb]

/-- C5 witness: the theorem applied to a table holding just `plainBob`:
repeating the (bob, bob@example.com) sign-up answers 200 with one account
still stored, while (bob, other@example.com) is rejected with 400. -/
theorem c5_signup_idempotent_witness :
    (signUpCreate [plainBob] "bob" "bob@example.com" "fresh").status = 200 ∧
      (signUpCreate [plainBob] "bob" "bob@example.com" "fresh").users.length =
        1 ∧
      (signUpCreate [plainBob] "bob" "other@example.com" "fresh").status =
        400 := by
  have h1 := c5_signup_idempotent [plainBob] "bob" "bob@example.com" "fresh"
    (by decide)
  have h2 := c5_signup_idempotent [plainBob] "bob" "other@example.com" "fresh"
    (by decide)
  refine ⟨(h1.1 ⟨plainBob, by simp, rfl, rfl⟩).2.1,
    (h1.1 ⟨plainBob, by simp, rfl, rfl⟩).1,
    (h2.2 ⟨plainBob, by simp, rfl⟩ ?_).1⟩
  intro x hx hxu
  simp at hx
  subst hx
  decide

/-- C6: a token request with the username of an existing user and the
matching confirmation code answers 200 with a token body; the same request
with a non-matching code answers 400 and carries no token. -/
theorem c6_token_exchange (users : List User) (u : User) (code : String)
    (hfind : users.find? (fun x => x.username == u.username) = some u)
    (hvalid : tokenSerializerValid u.username code = true) :
    (code = u.confirmationCode →
        tokenPost users u.username code = ⟨200, some (issueToken u)⟩) ∧
      (code ≠ u.confirmationCode →
        tokenPost users u.username code = ⟨400, none⟩) := by
  constructor
  · intro hcode
    subst hcode
    simp [tokenPost, hvalid, hfind, check_confirmation_code]
  · intro hcode
    have hne : (u.confirmationCode == code) = false := by
      simp [Ne.symm hcode]
    simp [tokenPost, hvalid, hfind, check_confirmation_code, hne]

/-- C6 witness: the theorem applied to the stored user `plainBob` with his
code "bobcode" and with the wrong code "wrong". -/
theorem c6_token_exchange_witness :
    tokenPost [plainBob] "bob" "bobcode" =
        ⟨200, some (issueToken plainBob)⟩ ∧
      tokenPost [plainBob] "bob" "wrong" = ⟨400, none⟩ := by
  have h1 := c6_token_exchange [plainBob] plainBob "bobcode" (by rfl)
    (by decide)
  have h2 := c6_token_exchange [plainBob] plainBob "wrong" (by rfl)
    (by decide)
  exact ⟨h1.1 rfl, h2.2 (by decide)⟩

/-- C7: deleting a Category referenced by at least one Title raises the
PROTECT error and leaves the whole state (the Category and its Titles)
untouched; deleting a Category referenced by no Title answers 204 and
removes exactly that Category. -/
theorem c7_category_delete_protect (st : CatalogState) (slug : String)
    (cat : Category)
    (hfind : st.categories.find? (fun c => c.slug == slug) = some cat) :
    ((∃ t ∈ st.titles, t.category = some slug) →
        delete_category st slug = (DeleteOutcome.protectedError, st)) ∧
      ((∀ t ∈ st.titles, t.category ≠ some slug) →
        delete_category st slug =
          (DeleteOutcome.response 204 (serializeCategory cat),
           { st with
              categories := st.categories.filter (fun c => c.slug != slug) })) := by
  constructor
  · rintro ⟨t, ht, hc⟩
    have hany : (st.titles.any fun x => x.category == some slug) = true :=
      List.any_eq_true.mpr ⟨t, ht, by simp [hc]⟩
    simp [delete_category, hfind, hany]
  · intro hnone
    have hany : (st.titles.any fun x => x.category == some slug) = false := by
      apply List.any_eq_false.mpr
      intro x hx
      simp only [beq_iff_eq]
      exact hnone x hx
    simp [delete_category, hfind, hany]

/-- C7 witness: in the concrete catalog below, deleting "film" (referenced
by the title) fails with the protect error and changes nothing; deleting
the unreferenced "books" succeeds with 204. -/
theorem c7_category_delete_protect_witness :
    delete_category demoState "film" =
        (DeleteOutcome.protectedError, demoState) ∧
      delete_category demoState "books" =
        (DeleteOutcome.response 204 (serializeCategory bookCat),
         { demoState with
            categories :=
              demoState.categories.filter (fun c => c.slug != "books") }) := by
  have h1 := c7_category_delete_protect demoState "film" filmCat (by rfl)
  have h2 := c7_category_delete_protect demoState "books" bookCat (by rfl)
  exact ⟨h1.1 (by decide), h2.2 (by decide)⟩

/-- C8: the review create path produces the same result for two request
bodies that differ only in their author field, and any review it creates
has the authenticated caller as author — the author value of the body is
never used. -/
theorem c8_review_author_is_caller (caller : String) (titleId : Nat)
    (stored : List ReviewRow) (b1 b2 : ReviewBody)
    (_htext : b1.text = b2.text) (hscore : b1.score = b2.score)
    (_htitle : b1.title = b2.title) :
    reviewCreate caller titleId stored b1 =
        reviewCreate caller titleId stored b2 ∧
      ∀ r, reviewCreate caller titleId stored b1 = Except.ok r →
        r.author = caller := by
  constructor
  · unfold reviewCreate
    rw [hscore]
  · intro r hr
    unfold reviewCreate at hr
    split at hr
    · exact absurd hr (by simp)
    · split at hr
      · exact absurd hr (by simp)
      · rw [← Except.ok.inj hr]

/-- C8 witness: two concrete bodies smuggling different author values
yield the same created review, authored by the caller "bob". -/
theorem c8_review_author_is_caller_witness :
    reviewCreate "bob" 1 []
        { text := "t", score := 5, author := some "alice" } =
      reviewCreate "bob" 1 []
        { text := "t", score := 5, author := some "eve" } ∧
      ({ author := "bob", titleId := 1, score := 5 } : ReviewRow).author =
        "bob" := by
  have h := c8_review_author_is_caller "bob" 1 []
    { text := "t", score := 5, author := some "alice" }
    { text := "t", score := 5, author := some "eve" } rfl rfl rfl
  exact ⟨h.1, h.2 { author := "bob", titleId := 1, score := 5 } (by rfl)⟩

/-- C9: a token request whose fields pass serializer validation but whose
username matches no stored user yields 404 from the user lookup — not a
400 — and no token. -/
theorem c9_token_unknown_username_404 (users : List User)
    (username code : String)
    (hvalid : tokenSerializerValid username code = true)
    (habsent : ∀ u ∈ users, u.username ≠ username) :
    tokenPost users username code = ⟨404, none⟩ := by
  have hfind : users.find? (fun u => u.username == username) = none := by
    apply List.find?_eq_none.mpr
    intro u hu
    simp only [beq_iff_eq]
    exact habsent u hu
  simp [tokenPost, hvalid, hfind]

/-- C9 witness: the theorem applied to the table holding only `plainBob`
and the unknown username "ghost". -/
theorem c9_token_unknown_username_404_witness :
    tokenPost [plainBob] "ghost" "anycode" = ⟨404, none⟩ :=
  c9_token_unknown_username_404 [plainBob] "ghost" "anycode" (by decide)
    (by decide)

/-- C10 (counterexample): in the concrete catalog, the category "film" is
referenced by a title, so its delete raises the protect error instead of
answering 204 with the serialized body — the claim does not hold for every
existing Category. -/
theorem c10_delete_204_counterexample :
    (delete_category demoState "film").1 = DeleteOutcome.protectedError ∧
      (delete_category demoState "film").1 ≠
        DeleteOutcome.response 204 (serializeCategory filmCat) := by
  exact ⟨by decide, by decide⟩

/-- C10 (amended): for every existing Genre, and for every existing
Category not referenced by any Title, the delete-by-slug action answers
204 with the serialized name and slug of the deleted object (the Genre
handler reusing the Category serializer yields the same two-field
shape). -/
theorem c10_delete_response_shape (st : CatalogState) (slug : String) :
    (∀ g, st.genres.find? (fun x => x.slug == slug) = some g →
        (delete_genre st slug).1 =
          DeleteOutcome.response 204 { name := g.name, slug := g.slug }) ∧
      (∀ c, st.categories.find? (fun x => x.slug == slug) = some c →
        (∀ t ∈ st.titles, t.category ≠ some slug) →
        (delete_category st slug).1 =
          DeleteOutcome.response 204 { name := c.name, slug := c.slug }) := by
  constructor
  · intro g hg
    simp [delete_genre, hg, serializeGenre]
  · intro c hc hnone
    have hany : (st.titles.any fun x => x.category == some slug) = false := by
      apply List.any_eq_false.mpr
      intro x hx
      simp only [beq_iff_eq]
      exact hnone x hx
    simp [delete_category, hc, hany, serializeCategory]

/-- C10 witness: deleting the genre "drama" and the unreferenced category
"books" in the concrete catalog both answer 204 with the two-field
serialized body. -/
theorem c10_delete_response_shape_witness :
    (delete_genre demoState "drama").1 =
        DeleteOutcome.response 204 { name := "Drama", slug := "drama" } ∧
      (delete_category demoState "books").1 =
        DeleteOutcome.response 204 { name := "Books", slug := "books" } := by
  have h1 := c10_delete_response_shape demoState "drama"
  have h2 := c10_delete_response_shape demoState "books"
  exact ⟨h1.1 ⟨"Drama", "drama"⟩ (by rfl), h2.2 ⟨"Books", "books"⟩ (by rfl)
    (by decide)⟩

end YaMDb
